import Mathlib

/-
Shallow embedding of src/ccmon.py (CCMon, the Claude/Codex/Cursor activity
monitor). Time is modelled in whole seconds as Nat; `datetime.min` maps to 0
and `datetime.now()` is an explicit `now` argument. Python dicts keyed by
strings become association lists with the insert-or-update, lookup-with-default
and membership operations used by the source.
-/

namespace CCMon

/-- Membership test for an association list, modelling `key in dict`. -/
def hasKey (l : List (String × Nat)) (k : String) : Bool :=
  l.any (fun p => decide (p.1 = k))

/-- Lookup with default 0, modelling `dict.get(key, 0)` (and
`dict.get(key, datetime.min)` with `datetime.min` mapped to 0). -/
def lookupD (l : List (String × Nat)) (k : String) : Nat :=
  match l with
  | [] => 0
  | p :: rest => if p.1 = k then p.2 else lookupD rest k

/-- Insert-or-update, modelling `dict[key] = value`. -/
def setKey (l : List (String × Nat)) (k : String) (v : Nat) : List (String × Nat) :=
  match l with
  | [] => [(k, v)]
  | p :: rest => if p.1 = k then (k, v) :: rest else p :: setKey rest k v

/-- Membership in a collection of paths, modelling
`event.src_path in self.processed_files`. -/
def memPath (l : List String) (p : String) : Bool :=
  l.any (fun q => decide (q = p))

/-- Suffix test on strings, modelling Python `str.endswith(suffix)`
(used as `event.src_path.endswith('.jsonl')` etc. in the handlers). -/
def strEndsWith (s suffix : String) : Bool :=
  suffix.data.isSuffixOf s.data

/-- State of `SoundPlayer` (ccmon.py lines 52-94 and 116-197): the clamped
volume level, the enabled flag, the `playing` flag, and the `start_time`
captured by the `_play` worker when a performance begins. -/
structure SoundPlayer where
  volume_level : Int
  enabled : Bool
  playing : Bool
  perf_start : Nat

/-- The `volume_level` setter (lines 77-81):
`level = max(0, min(3, int(level)))` then store. -/
def setVolumeLevel (level : Int) (s : SoundPlayer) : SoundPlayer :=
  { s with volume_level := max 0 (min 3 level) }

/-- Sequential effect of `play_beeps` (lines 116-127): if a performance is in
progress (`self.playing`), return without any change; otherwise set
`playing = True` and start the `_play` worker, which immediately resets
`playing = False` when sound is disabled, and otherwise records `start_time`
(here `perf_start := now`). -/
def play_beeps (now : Nat) (s : SoundPlayer) : SoundPlayer :=
  if s.playing then s
  else if !s.enabled then { s with playing := false }
  else { s with playing := true, perf_start := now }

/-- Whether the `_play` worker is still emitting at time `t`: the loop at
line 152 runs `while time.time() - start_time < 10.0` (and the player is
still marked playing). -/
def performing (s : SoundPlayer) (t : Nat) : Bool :=
  s.playing && decide (t - s.perf_start < 10)

/-- The three platform names keyed in `ActivityTracker._last` (lines 269-273). -/
def trackerSources : List String := ["claude", "codex", "cursor"]

/-- State of `ActivityTracker` (lines 265-286): the activity window in seconds
and the `_last` dict mapping each platform to its last activity time
(initialised to `datetime.min`, here 0). -/
structure ActivityTracker where
  window : Nat
  last : List (String × Nat)

/-- Constructor of `ActivityTracker` (lines 267-274). -/
def ActivityTracker.init (window_seconds : Nat) : ActivityTracker :=
  { window := window_seconds
    last := [("claude", 0), ("codex", 0), ("cursor", 0)] }

/-- Method `ActivityTracker.note` (lines 276-280): record `now` only when the name is
already a key of `_last`. -/
def ActivityTracker.note (t : ActivityTracker) (name : String) (now : Nat) :
    ActivityTracker :=
  if hasKey t.last name then { t with last := setKey t.last name now } else t

/-- Method `ActivityTracker.is_active` (lines 282-286):
`(now - self._last.get(name, datetime.min)) <= self.window`. -/
def ActivityTracker.is_active (t : ActivityTracker) (name : String) (now : Nat) :
    Bool :=
  decide (now - lookupD t.last name ≤ t.window)

/-- Key set of the tracker's `_last` dict. -/
def ActivityTracker.keys (t : ActivityTracker) : List String :=
  t.last.map Prod.fst

/-- State of `ClaudeNetworkMonitor` (lines 289-294): the
`last_bytes_sent` and `last_bytes_received` dicts mapping a pid to the last
recorded byte count. -/
structure ClaudeNetworkMonitor where
  last_bytes_sent : List (String × Nat)
  last_bytes_received : List (String × Nat)

/-- The loop body of `has_network_activity` (lines 389-412), iterating over
the pid list. `sample pid` is the `(bytes_in, bytes_out)` pair returned by
`get_network_activity(pid)` (an external collaborator: `nettop`, falling back
to an `lsof` connection count, and `(0, 0)` when both fail). For each pid the
last recorded values default to 0; a strict increase in either direction
records the sample and returns True at once, as does a first sighting (pid
not in `last_bytes_received`) with a nonzero sample; otherwise the loop
continues, and returns False after the last pid. -/
def has_network_activity_go (m : ClaudeNetworkMonitor)
    (sample : String → Nat × Nat) : List String → Bool × ClaudeNetworkMonitor
  | [] => (false, m)
  | pid :: rest =>
    let bytes_in := (sample pid).1
    let bytes_out := (sample pid).2
    let last_in := lookupD m.last_bytes_received pid
    let last_out := lookupD m.last_bytes_sent pid
    if bytes_in > last_in || bytes_out > last_out then
      (true,
        { last_bytes_received := setKey m.last_bytes_received pid bytes_in
          last_bytes_sent := setKey m.last_bytes_sent pid bytes_out })
    else if !(hasKey m.last_bytes_received pid) && (bytes_in > 0 || bytes_out > 0) then
      (true,
        { last_bytes_received := setKey m.last_bytes_received pid bytes_in
          last_bytes_sent := setKey m.last_bytes_sent pid bytes_out })
    else
      has_network_activity_go m sample rest

/-- Method `has_network_activity` (lines 389-412). `pids` is the list returned by
`get_claude_processes` (empty when the process-listing collaborator is
unreachable, lines 322-324). Returns the boolean result together with the
updated monitor state. -/
def has_network_activity (m : ClaudeNetworkMonitor) (pids : List String)
    (sample : String → Nat × Nat) : Bool × ClaudeNetworkMonitor :=
  has_network_activity_go m sample pids

/-- The per-pid activity condition of `has_network_activity`: a strict
increase in `bytes_in` or `bytes_out` over the recorded value (default 0), or
a first sighting with a nonzero sample. -/
def activeCond (m : ClaudeNetworkMonitor) (sample : String → Nat × Nat)
    (pid : String) : Prop :=
  (lookupD m.last_bytes_received pid < (sample pid).1 ∨
   lookupD m.last_bytes_sent pid < (sample pid).2) ∨
  (hasKey m.last_bytes_received pid = false ∧
   (0 < (sample pid).1 ∨ 0 < (sample pid).2))

instance (m : ClaudeNetworkMonitor) (sample : String → Nat × Nat)
    (pid : String) : Decidable (activeCond m sample pid) := by
  unfold activeCond; infer_instance

/-- A filesystem event as delivered by watchdog: whether it targets a
directory, and its source path. -/
structure FileEvent where
  is_directory : Bool
  src_path : String

/-- State of `ClaudeProjectsHandler` (lines 415-422): only the time of the
last firing (`last_played`). This handler keeps no record of seen paths. -/
structure ClaudeProjectsHandler where
  last_played : Nat

/-- Method `ClaudeProjectsHandler._handle_file_event` (lines 424-437): ignore
directory events; on a `.jsonl` path, fire iff at least 10 seconds have
passed since `last_played`, updating `last_played`. The returned boolean is
true exactly when the handler calls `sound_player.play_beeps()` and
`activity_tracker.note('claude')`. -/
def ClaudeProjectsHandler.handle (h : ClaudeProjectsHandler) (e : FileEvent)
    (now : Nat) : Bool × ClaudeProjectsHandler :=
  if e.is_directory then (false, h)
  else if strEndsWith e.src_path ".jsonl" then
    if 10 ≤ now - h.last_played then (true, { last_played := now })
    else (false, h)
  else (false, h)

/-- State of `CodexSessionsHandler` (lines 448-456): time of the last firing
and the set of processed file paths. -/
structure CodexSessionsHandler where
  last_played : Nat
  processed_files : List String

/-- Method `CodexSessionsHandler._handle_file_event` (lines 458-473): ignore
directory events; on a `.json` or `.jsonl` path, fire iff the path is new or
at least 10 seconds have passed since `last_played`; on firing update
`last_played` and add the path to `processed_files`. The returned boolean is
true exactly when the handler calls `play_beeps()` and `note('codex')`. -/
def CodexSessionsHandler.handle (h : CodexSessionsHandler) (e : FileEvent)
    (now : Nat) : Bool × CodexSessionsHandler :=
  if e.is_directory then (false, h)
  else if strEndsWith e.src_path ".json" || strEndsWith e.src_path ".jsonl" then
    if !(memPath h.processed_files e.src_path) || 10 ≤ now - h.last_played then
      (true,
        { last_played := now
          processed_files := e.src_path :: h.processed_files })
    else (false, h)
  else (false, h)

/-- State of `CursorChatsHandler` (lines 489-497): time of the last firing
and the set of processed file paths. -/
structure CursorChatsHandler where
  last_played : Nat
  processed_files : List String

/-- Method `CursorChatsHandler._handle_file_event` (lines 499-512): ignore directory
events; for any non-directory path regardless of extension, fire iff the path
is new or at least 10 seconds have passed since `last_played`; on firing
update `last_played` and add the path to `processed_files`. The returned
boolean is true exactly when the handler calls `play_beeps()` and
`note('cursor')`. -/
def CursorChatsHandler.handle (h : CursorChatsHandler) (e : FileEvent)
    (now : Nat) : Bool × CursorChatsHandler :=
  if e.is_directory then (false, h)
  else if !(memPath h.processed_files e.src_path) || 10 ≤ now - h.last_played then
    (true,
      { last_played := now
        processed_files := e.src_path :: h.processed_files })
  else (false, h)

/-- The network-side loop state of `main` (lines 732-734): `was_active` and
`last_network_sound`. -/
structure NetLoopState where
  was_active : Bool
  last_network_sound : Nat

/-- Function `loop_step` (lines 737-751): given the tick's `has_network_activity`
result, play iff activity is present and at least 10 seconds have passed
since `last_network_sound` (then record `now`); always record `was_active`.
The returned boolean is true exactly when `sound_player.play_beeps()` is
called. -/
def loop_step (st : NetLoopState) (has_activity : Bool) (now : Nat) :
    Bool × NetLoopState :=
  if has_activity then
    if 10 ≤ now - st.last_network_sound then
      (true, { was_active := true, last_network_sound := now })
    else
      (false, { st with was_active := true })
  else
    (false, { st with was_active := false })

/-
Interleaving model of the cooldown check-and-set for two concurrent callers
of one notification group. The guarded firing in
`ClaudeProjectsHandler._handle_file_event` (lines 434-436) is

    if current_time - self.last_played >= timedelta(seconds=10):
        self.sound_player.play_beeps()
        self.last_played = current_time

with no lock around it, so the conditional test (line 434) and the
fire-and-record body (lines 435-436) are separate steps that a thread switch
can interleave. Each thread's program counter: 0 = about to evaluate the
test, 1 = test passed and about to fire, 2 = finished.
-/

/-- Shared and per-thread state for two callers racing through the cooldown
check-and-set: the group's `last_played`, the number of `play_beeps()`
invocations so far, and each thread's program counter. -/
structure RaceState where
  last_played : Nat
  plays : Nat
  pc1 : Nat
  pc2 : Nat

/-- One micro-step of one caller (`tid` selects the thread): at pc 0 evaluate
`now - last_played >= 10` against the current shared state; at pc 1 invoke
`play_beeps()` and record `last_played = now`. -/
def raceStep (now : Nat) (st : RaceState) (tid : Bool) : RaceState :=
  let pc := if tid then st.pc1 else st.pc2
  match pc with
  | 0 =>
    if 10 ≤ now - st.last_played then
      if tid then { st with pc1 := 1 } else { st with pc2 := 1 }
    else
      if tid then { st with pc1 := 2 } else { st with pc2 := 2 }
  | 1 =>
    if tid then
      { st with plays := st.plays + 1, last_played := now, pc1 := 2 }
    else
      { st with plays := st.plays + 1, last_played := now, pc2 := 2 }
  | _ => st

/-- Run a schedule (a list of thread choices) of micro-steps. -/
def runSchedule (now : Nat) (st : RaceState) : List Bool → RaceState
  | [] => st
  | tid :: rest => runSchedule now (raceStep now st tid) rest

/-
Helper lemmas about the association-list operations.
-/

theorem lookupD_setKey_self (l : List (String × Nat)) (k : String) (v : Nat) :
    lookupD (setKey l k v) k = v := by
  induction l with
  | nil => simp [setKey, lookupD]
  | cons p rest ih =>
    simp only [setKey]
    split_ifs with h
    · simp [lookupD]
    · simp [lookupD, h, ih]

theorem lookupD_setKey_ne (l : List (String × Nat)) (k k' : String) (v : Nat)
    (h : k ≠ k') : lookupD (setKey l k v) k' = lookupD l k' := by
  induction l with
  | nil => simp [setKey, lookupD, h]
  | cons p rest ih =>
    simp only [setKey]
    split_ifs with hp
    · simp [lookupD, h, hp]
    · simp [lookupD, ih]

theorem hasKey_setKey_ne (l : List (String × Nat)) (k k' : String) (v : Nat)
    (h : k ≠ k') : hasKey (setKey l k v) k' = hasKey l k' := by
  induction l with
  | nil => simp [setKey, hasKey, h]
  | cons p rest ih =>
    simp only [setKey]
    split_ifs with hp
    · simp [hasKey, h, hp]
    · simp only [hasKey, List.any_cons] at ih ⊢
      rw [ih]

theorem keys_setKey_of_hasKey (l : List (String × Nat)) (k : String) (v : Nat)
    (h : hasKey l k = true) : (setKey l k v).map Prod.fst = l.map Prod.fst := by
  induction l with
  | nil => simp [hasKey] at h
  | cons p rest ih =>
    simp only [setKey]
    split_ifs with hp
    · simp [hp]
    · simp only [hasKey, List.any_cons, Bool.or_eq_true, decide_eq_true_eq] at h
      rcases h with h | h
      · exact absurd h hp
      · simp [ih h]

theorem hasKey_iff_mem_keys (l : List (String × Nat)) (k : String) :
    hasKey l k = true ↔ k ∈ l.map Prod.fst := by
  simp [hasKey, List.any_eq_true, List.mem_map]

theorem lookupD_eq_zero_of_not_hasKey (l : List (String × Nat)) (k : String)
    (h : hasKey l k = false) : lookupD l k = 0 := by
  induction l with
  | nil => simp [lookupD]
  | cons p rest ih =>
    simp only [hasKey, List.any_cons, Bool.or_eq_false_iff,
      decide_eq_false_iff_not] at h
    simp only [lookupD, if_neg h.1]
    exact ih (by simpa [hasKey] using h.2)

theorem lookupD_tracker_init (w : Nat) (name : String) :
    lookupD (ActivityTracker.init w).last name = 0 := by
  simp only [ActivityTracker.init, lookupD]
  split_ifs <;> rfl

theorem memPath_cons_self (l : List String) (p : String) :
    memPath (p :: l) p = true := by
  simp [memPath]

/-
Claim theorems.
-/

/-- C9: for every integer `v` passed to the `volume_level` setter, the stored
level afterwards equals `max 0 (min 3 v)`; out-of-range requests are clamped
into the range 0..3 rather than rejected, and reading `volume_level` back
returns the clamped value. -/
theorem setVolumeLevel_clamps (v : Int) (s : SoundPlayer) :
    (setVolumeLevel v s).volume_level = max 0 (min 3 v) ∧
    0 ≤ (setVolumeLevel v s).volume_level ∧
    (setVolumeLevel v s).volume_level ≤ 3 := by
  refine ⟨rfl, ?_, ?_⟩ <;> simp [setVolumeLevel]

/-- C8: a filesystem event whose target is a directory leaves every platform
handler's state (including `last_played` and `processed_files`) unchanged and
produces no firing, hence no `play_beeps()` call and no
`activity_tracker.note` call. -/
theorem directory_events_ignored (e : FileEvent) (now : Nat)
    (hdir : e.is_directory = true) :
    (∀ h : ClaudeProjectsHandler, h.handle e now = (false, h)) ∧
    (∀ h : CodexSessionsHandler, h.handle e now = (false, h)) ∧
    (∀ h : CursorChatsHandler, h.handle e now = (false, h)) := by
  refine ⟨fun h => ?_, fun h => ?_, fun h => ?_⟩ <;>
    simp [ClaudeProjectsHandler.handle, CodexSessionsHandler.handle,
      CursorChatsHandler.handle, hdir]

/-- Witness for C8 at a concrete directory event. -/
theorem directory_events_ignored_witness :
    (ClaudeProjectsHandler.mk 0).handle (FileEvent.mk true "d.jsonl") 50 =
      (false, ClaudeProjectsHandler.mk 0) :=
  (directory_events_ignored (FileEvent.mk true "d.jsonl") 50 rfl).1
    (ClaudeProjectsHandler.mk 0)

/-- C5: for a source name in the tracker's enumerated set, `is_active` is
false on the initial state (each initial timestamp is `datetime.min`, i.e. 0,
and the clock reads more than one window after it), and after a
`note name tn` on any state holding that key, `is_active` at time `now`
returns exactly the test `now - tn ≤ window`, `tn` being the most recent
note's time. -/
theorem tracker_is_active_spec (w now tn : Nat) (name : String)
    (hname : name ∈ trackerSources) :
    (w < now → (ActivityTracker.init w).is_active name now = false) ∧
    (∀ t : ActivityTracker, hasKey t.last name = true →
      (t.note name tn).is_active name now = decide (now - tn ≤ t.window)) := by
  constructor
  · intro hw
    have h1 : lookupD (ActivityTracker.init w).last name = 0 :=
      lookupD_tracker_init w name
    simp only [ActivityTracker.is_active, h1, Nat.sub_zero,
      decide_eq_false_iff_not]
    simp only [ActivityTracker.init]
    omega
  · intro t ht
    simp [ActivityTracker.note, ht, ActivityTracker.is_active,
      lookupD_setKey_self]

/-- Witness for C5: with a 10-second window, the initial tracker is inactive
for claude at time 100, and after a note at time 95 activity at time 100 is
exactly the window test. -/
theorem tracker_is_active_spec_witness :
    (ActivityTracker.init 10).is_active "claude" 100 = false ∧
    ((ActivityTracker.init 10).note "claude" 95).is_active "claude" 100 =
      decide (100 - 95 ≤ 10) :=
  ⟨(tracker_is_active_spec 10 100 95 "claude" (by decide)).1 (by decide),
   (tracker_is_active_spec 10 100 95 "claude" (by decide)).2
     (ActivityTracker.init 10) (by decide)⟩

/-- C10: the tracker's key set is exactly claude, codex, cursor at all times
(`note` never adds or removes a key); a `note` for any other name leaves the
state completely unchanged; and `is_active` for such a name is false whenever
the clock reads more than one window after `datetime.min`. -/
theorem tracker_keys_closed (w : Nat) :
    (ActivityTracker.init w).keys = trackerSources ∧
    (∀ (t : ActivityTracker) (name : String) (tn : Nat),
      (t.note name tn).keys = t.keys) ∧
    (∀ (t : ActivityTracker) (name : String) (tn : Nat),
      t.keys = trackerSources → name ∉ trackerSources →
      t.note name tn = t) ∧
    (∀ (t : ActivityTracker) (name : String) (now : Nat),
      t.keys = trackerSources → name ∉ trackerSources → t.window < now →
      t.is_active name now = false) := by
  have hkey : ∀ (t : ActivityTracker) (name : String),
      t.keys = trackerSources → name ∉ trackerSources →
      hasKey t.last name = false := by
    intro t name hk hn
    rw [Bool.eq_false_iff]
    intro hcontra
    exact hn (hk ▸ (hasKey_iff_mem_keys t.last name).mp hcontra)
  refine ⟨rfl, ?_, ?_, ?_⟩
  · intro t name tn
    unfold ActivityTracker.note
    split_ifs with h
    · exact keys_setKey_of_hasKey t.last name tn h
    · rfl
  · intro t name tn hk hn
    unfold ActivityTracker.note
    rw [hkey t name hk hn]
    simp
  · intro t name now hk hn hw
    have h0 := lookupD_eq_zero_of_not_hasKey t.last name (hkey t name hk hn)
    simp only [ActivityTracker.is_active, h0, Nat.sub_zero,
      decide_eq_false_iff_not]
    omega

/-- Witness for C10 at the name "other", which is not a platform: noting it
changes nothing and it is never reported active. -/
theorem tracker_keys_closed_witness :
    (ActivityTracker.init 10).note "other" 95 = ActivityTracker.init 10 ∧
    (ActivityTracker.init 10).is_active "other" 100 = false :=
  ⟨(tracker_keys_closed 10).2.2.1 (ActivityTracker.init 10) "other" 95
      rfl (by decide),
   (tracker_keys_closed 10).2.2.2 (ActivityTracker.init 10) "other" 100
      rfl (by decide) (by decide)⟩

/-- C6: a `play_beeps` issued while a performance is in progress is swallowed
(the state, including `perf_start`, is completely unchanged, so nothing is
queued and the current performance is not extended, and since `playing` is a
single flag two performances never overlap); when idle and enabled,
`play_beeps` starts a performance at `now` whose emission loop has ended at
every time at least 10 seconds later. -/
theorem play_beeps_swallow_and_self_terminate (s : SoundPlayer) (now t : Nat) :
    (s.playing = true → play_beeps now s = s) ∧
    (s.playing = false → s.enabled = true →
      (play_beeps now s).playing = true ∧
      (play_beeps now s).perf_start = now ∧
      (now + 10 ≤ t → performing (play_beeps now s) t = false)) := by
  constructor
  · intro h
    simp [play_beeps, h]
  · intro h he
    refine ⟨by simp [play_beeps, h, he], by simp [play_beeps, h, he], ?_⟩
    intro ht
    simp only [play_beeps, h, he, performing]
    simp only [Bool.false_eq_true, if_false, Bool.not_true, Bool.false_eq_true,
      if_false]
    simp only [Bool.true_and, decide_eq_false_iff_not]
    omega

/-- Witness for C6: a busy player swallows the request; an idle enabled
player starts at 5 and is no longer performing at 20. -/
theorem play_beeps_swallow_and_self_terminate_witness :
    play_beeps 5 (SoundPlayer.mk 2 true true 0) = SoundPlayer.mk 2 true true 0 ∧
    performing (play_beeps 5 (SoundPlayer.mk 2 true false 0)) 20 = false :=
  ⟨(play_beeps_swallow_and_self_terminate (SoundPlayer.mk 2 true true 0) 5 20).1
      rfl,
   ((play_beeps_swallow_and_self_terminate (SoundPlayer.mk 2 true false 0) 5
      20).2 rfl rfl).2.2 (by decide)⟩

theorem has_network_activity_go_iff (m : ClaudeNetworkMonitor)
    (sample : String → Nat × Nat) (pids : List String) :
    (has_network_activity_go m sample pids).1 = true ↔
      ∃ pid ∈ pids, activeCond m sample pid := by
  induction pids with
  | nil => simp [has_network_activity_go]
  | cons pid rest ih =>
    simp only [has_network_activity_go]
    split_ifs with h1 h2
    · simp only [Bool.or_eq_true, decide_eq_true_eq] at h1
      constructor
      · intro _
        exact ⟨pid, List.mem_cons_self pid rest, Or.inl h1⟩
      · intro _
        rfl
    · simp only [Bool.and_eq_true, Bool.not_eq_true', Bool.or_eq_true,
        decide_eq_true_eq] at h2
      constructor
      · intro _
        exact ⟨pid, List.mem_cons_self pid rest, Or.inr ⟨h2.1, h2.2⟩⟩
      · intro _
        rfl
    · simp only [Bool.or_eq_true, decide_eq_true_eq, not_or] at h1
      simp only [Bool.and_eq_true, Bool.not_eq_true', Bool.or_eq_true,
        decide_eq_true_eq, not_and, not_or] at h2
      rw [ih]
      constructor
      · rintro ⟨p, hp, hc⟩
        exact ⟨p, List.mem_cons_of_mem pid hp, hc⟩
      · rintro ⟨p, hp, hc⟩
        rcases List.mem_cons.mp hp with rfl | hp'
        · exfalso
          rcases hc with hinc | ⟨hk, hnz⟩
          · rcases hinc with hin | hout
            · exact h1.1 hin
            · exact h1.2 hout
          · rcases h2 hk with ⟨hz1, hz2⟩
            rcases hnz with hn | hn
            · exact hz1 hn
            · exact hz2 hn
        · exact ⟨p, hp', hc⟩

/-- C1: the poller's activity check returns true iff at least one pid in the
snapshot shows a strict increase in `bytes_in` or `bytes_out` over that pid's
previously recorded sample (default 0), or is seen for the first time with a
nonzero sample; it returns false on an empty snapshot (the process-listing
collaborator unreachable) and when every sample reads (0, 0) (the sampling
collaborator unreachable). -/
theorem has_network_activity_iff (m : ClaudeNetworkMonitor)
    (pids : List String) (sample : String → Nat × Nat) :
    ((has_network_activity m pids sample).1 = true ↔
      ∃ pid ∈ pids, activeCond m sample pid) ∧
    (has_network_activity m [] sample).1 = false ∧
    (has_network_activity m pids (fun _ => (0, 0))).1 = false := by
  refine ⟨has_network_activity_go_iff m sample pids, ?_, ?_⟩
  · rfl
  · rw [Bool.eq_false_iff]
    intro hcontra
    rcases (has_network_activity_go_iff m (fun _ => (0, 0)) pids).mp hcontra
      with ⟨p, _, hc⟩
    rcases hc with hinc | ⟨_, hnz⟩
    · rcases hinc with h | h <;> exact Nat.not_lt_zero _ h
    · rcases hnz with h | h <;> exact Nat.lt_irrefl 0 h

/-- Counterexample for C4: take a monitor whose state records pid "7" and run
a tick whose snapshot is empty (pid "7" has exited). The claim says the entry
for "7" is pruned; the state after the tick still contains it. -/
theorem poller_prunes_counterexample :
    hasKey (has_network_activity
      { last_bytes_sent := [("7", 3)], last_bytes_received := [("7", 5)] }
      [] (fun _ => (0, 0))).2.last_bytes_received "7" = true := by
  decide

/-- C4 amended: `has_network_activity` never removes an entry; a pid absent
from the tick's snapshot keeps exactly its previous recorded entry (both
presence and value) after the tick, so entries outlive the process they
describe. -/
theorem poller_never_prunes (m : ClaudeNetworkMonitor) (pids : List String)
    (sample : String → Nat × Nat) (pid : String) (hp : pid ∉ pids) :
    hasKey (has_network_activity m pids sample).2.last_bytes_received pid =
      hasKey m.last_bytes_received pid ∧
    lookupD (has_network_activity m pids sample).2.last_bytes_received pid =
      lookupD m.last_bytes_received pid ∧
    lookupD (has_network_activity m pids sample).2.last_bytes_sent pid =
      lookupD m.last_bytes_sent pid := by
  unfold has_network_activity
  induction pids with
  | nil => exact ⟨rfl, rfl, rfl⟩
  | cons q rest ih =>
    have hq : q ≠ pid := fun hcontra =>
      hp (hcontra ▸ List.mem_cons_self q rest)
    have hrest : pid ∉ rest := fun hcontra =>
      hp (List.mem_cons_of_mem q hcontra)
    simp only [has_network_activity_go]
    split_ifs with h1 h2
    · exact ⟨hasKey_setKey_ne _ q pid _ hq,
        lookupD_setKey_ne _ q pid _ hq, lookupD_setKey_ne _ q pid _ hq⟩
    · exact ⟨hasKey_setKey_ne _ q pid _ hq,
        lookupD_setKey_ne _ q pid _ hq, lookupD_setKey_ne _ q pid _ hq⟩
    · exact ih hrest

/-- Witness for C4 amended: pid "7" is not in the snapshot consisting only of
pid "3", and its recorded entry survives the tick unchanged. -/
theorem poller_never_prunes_witness :
    hasKey (has_network_activity
      { last_bytes_sent := [("7", 3)], last_bytes_received := [("7", 5)] }
      ["3"] (fun _ => (0, 0))).2.last_bytes_received "7" =
      hasKey [("7", 5)] "7" :=
  (poller_never_prunes
    { last_bytes_sent := [("7", 3)], last_bytes_received := [("7", 5)] }
    ["3"] (fun _ => (0, 0)) "7" (by decide)).1

theorem memPath_cons_of_mem (l : List String) (p q : String)
    (h : memPath l p = true) : memPath (q :: l) p = true := by
  simp only [memPath, List.any_cons, Bool.or_eq_true] at h ⊢
  exact Or.inr h

/-- Counterexample for C2: the Claude watcher keeps no seen-path set. From a
fresh handler, a first event on "b.jsonl" at time 100 fires; an event at time
105 on "a.jsonl" — a path never seen before — does not fire, although the
claim says a never-seen path always fires immediately regardless of
cooldown. -/
theorem debounce_newpath_counterexample :
    ((ClaudeProjectsHandler.mk 0).handle (FileEvent.mk false "b.jsonl")
      100).1 = true ∧
    (((ClaudeProjectsHandler.mk 0).handle (FileEvent.mk false "b.jsonl")
      100).2.handle (FileEvent.mk false "a.jsonl") 105).1 = false := by
  decide

/-- C2 amended: for the Codex and Cursor watchers, a qualifying event on a
never-seen path fires immediately regardless of cooldown and the path is then
added to the seen set, while a qualifying event on a seen path fires iff at
least 10 seconds have elapsed since the watcher's last firing; the Claude
watcher keeps no seen-path set and fires a qualifying event iff at least 10
seconds have elapsed since its last firing, new path or not. -/
theorem debounce_policy (now : Nat) (e : FileEvent)
    (hdir : e.is_directory = false) :
    (∀ h : ClaudeProjectsHandler, strEndsWith e.src_path ".jsonl" = true →
      ((h.handle e now).1 = true ↔ 10 ≤ now - h.last_played)) ∧
    (∀ h : CodexSessionsHandler,
      (strEndsWith e.src_path ".json" || strEndsWith e.src_path ".jsonl") =
        true →
      (memPath h.processed_files e.src_path = false →
        (h.handle e now).1 = true ∧
        memPath (h.handle e now).2.processed_files e.src_path = true) ∧
      (memPath h.processed_files e.src_path = true →
        ((h.handle e now).1 = true ↔ 10 ≤ now - h.last_played))) ∧
    (∀ h : CursorChatsHandler,
      (memPath h.processed_files e.src_path = false →
        (h.handle e now).1 = true ∧
        memPath (h.handle e now).2.processed_files e.src_path = true) ∧
      (memPath h.processed_files e.src_path = true →
        ((h.handle e now).1 = true ↔ 10 ≤ now - h.last_played))) := by
  refine ⟨?_, ?_, ?_⟩
  · intro h hext
    simp only [ClaudeProjectsHandler.handle, hdir, Bool.false_eq_true,
      if_false, hext, if_true]
    split_ifs with hc <;> simp [hc]
  · intro h hext
    constructor
    · intro hmem
      simp [CodexSessionsHandler.handle, hdir, hext, hmem, memPath_cons_self]
    · intro hmem
      simp only [CodexSessionsHandler.handle, hdir, Bool.false_eq_true,
        if_false, hext, if_true, hmem, Bool.not_true, Bool.false_or]
      split_ifs with hc <;> simp only [decide_eq_true_eq] at hc <;> simp [hc]
  · intro h
    constructor
    · intro hmem
      simp [CursorChatsHandler.handle, hdir, hmem, memPath_cons_self]
    · intro hmem
      simp only [CursorChatsHandler.handle, hdir, Bool.false_eq_true,
        if_false, hmem, Bool.not_true, Bool.false_or]
      split_ifs with hc <;> simp only [decide_eq_true_eq] at hc <;> simp [hc]

/-- Witness for C2 amended: a fresh Codex path fires inside the cooldown and
is recorded as seen; the Claude watcher fires iff the cooldown has elapsed. -/
theorem debounce_policy_witness :
    ((CodexSessionsHandler.mk 100 ["s.json"]).handle
      (FileEvent.mk false "n.json") 105).1 = true ∧
    ((ClaudeProjectsHandler.mk 100).handle
      (FileEvent.mk false "n.jsonl") 112).1 = true :=
  ⟨(((debounce_policy 105 (FileEvent.mk false "n.json") rfl).2.1
      (CodexSessionsHandler.mk 100 ["s.json"]) (by decide)).1 (by decide)).1,
   ((debounce_policy 112 (FileEvent.mk false "n.jsonl") rfl).1
      (ClaudeProjectsHandler.mk 100) (by decide)).mpr (by decide)⟩

/-- Counterexample for C3: the Codex watcher bypasses the cooldown for a
never-seen path, so two qualifying events 5 seconds apart (both on fresh
paths) each invoke `play_beeps()` — two Play invocations within one cooldown
window, where the claim allows exactly one. -/
theorem single_play_counterexample :
    ((CodexSessionsHandler.mk 0 []).handle (FileEvent.mk false "a.json")
      100).1 = true ∧
    (((CodexSessionsHandler.mk 0 []).handle (FileEvent.mk false "a.json")
      100).2.handle (FileEvent.mk false "b.json") 105).1 = true := by
  decide

/-- C3 amended: for the Claude watcher, for the network poller, and for the
Codex and Cursor watchers when both events concern already-seen paths, two
qualifying requests whose first passes the cooldown produce exactly one
`play_beeps()` call when separated by less than 10 seconds (the first fires,
the second does not) and exactly two when separated by at least 10 seconds;
in the Codex and Cursor watchers a request for a never-seen path bypasses the
cooldown, so two such requests can produce two calls inside one window. -/
theorem single_play_per_cooldown (t1 t2 : Nat) :
    (∀ (h : ClaudeProjectsHandler) (e1 e2 : FileEvent),
      e1.is_directory = false → strEndsWith e1.src_path ".jsonl" = true →
      e2.is_directory = false → strEndsWith e2.src_path ".jsonl" = true →
      10 ≤ t1 - h.last_played →
      (h.handle e1 t1).1 = true ∧
      (((h.handle e1 t1).2.handle e2 t2).1 = true ↔ 10 ≤ t2 - t1)) ∧
    (∀ st : NetLoopState, 10 ≤ t1 - st.last_network_sound →
      (loop_step st true t1).1 = true ∧
      ((loop_step (loop_step st true t1).2 true t2).1 = true ↔
        10 ≤ t2 - t1)) ∧
    (∀ (h : CodexSessionsHandler) (e1 e2 : FileEvent),
      e1.is_directory = false →
      (strEndsWith e1.src_path ".json" || strEndsWith e1.src_path ".jsonl") =
        true →
      e2.is_directory = false →
      (strEndsWith e2.src_path ".json" || strEndsWith e2.src_path ".jsonl") =
        true →
      memPath h.processed_files e1.src_path = true →
      memPath h.processed_files e2.src_path = true →
      10 ≤ t1 - h.last_played →
      (h.handle e1 t1).1 = true ∧
      (((h.handle e1 t1).2.handle e2 t2).1 = true ↔ 10 ≤ t2 - t1)) ∧
    (∀ (h : CursorChatsHandler) (e1 e2 : FileEvent),
      e1.is_directory = false → e2.is_directory = false →
      memPath h.processed_files e1.src_path = true →
      memPath h.processed_files e2.src_path = true →
      10 ≤ t1 - h.last_played →
      (h.handle e1 t1).1 = true ∧
      (((h.handle e1 t1).2.handle e2 t2).1 = true ↔ 10 ≤ t2 - t1)) := by
  refine ⟨?_, ?_, ?_, ?_⟩
  · intro h e1 e2 hd1 hx1 hd2 hx2 hcool
    have r1 : h.handle e1 t1 = (true, ClaudeProjectsHandler.mk t1) := by
      simp [ClaudeProjectsHandler.handle, hd1, hx1, hcool]
    refine ⟨by rw [r1], ?_⟩
    rw [r1]
    simp only [ClaudeProjectsHandler.handle, hd2, Bool.false_eq_true,
      if_false, hx2, if_true]
    split_ifs with hc <;> simp [hc]
  · intro st hcool
    have r1 : loop_step st true t1 = (true, NetLoopState.mk true t1) := by
      simp [loop_step, hcool]
    refine ⟨by rw [r1], ?_⟩
    rw [r1]
    simp only [loop_step, if_true]
    split_ifs with hc <;> simp [hc]
  · intro h e1 e2 hd1 hx1 hd2 hx2 hm1 hm2 hcool
    have r1 : h.handle e1 t1 =
        (true, CodexSessionsHandler.mk t1 (e1.src_path :: h.processed_files)) := by
      simp [CodexSessionsHandler.handle, hd1, hx1, hm1, hcool]
    refine ⟨by rw [r1], ?_⟩
    rw [r1]
    simp only [CodexSessionsHandler.handle, hd2, Bool.false_eq_true,
      if_false, hx2, if_true, memPath_cons_of_mem _ _ _ hm2, Bool.not_true,
      Bool.false_or]
    split_ifs with hc <;> simp only [decide_eq_true_eq] at hc <;> simp [hc]
  · intro h e1 e2 hd1 hd2 hm1 hm2 hcool
    have r1 : h.handle e1 t1 =
        (true, CursorChatsHandler.mk t1 (e1.src_path :: h.processed_files)) := by
      simp [CursorChatsHandler.handle, hd1, hm1, hcool]
    refine ⟨by rw [r1], ?_⟩
    rw [r1]
    simp only [CursorChatsHandler.handle, hd2, Bool.false_eq_true,
      if_false, memPath_cons_of_mem _ _ _ hm2, Bool.not_true, Bool.false_or]
    split_ifs with hc <;> simp only [decide_eq_true_eq] at hc <;> simp [hc]

/-- Witness for C3 amended: on the Claude watcher, events at 100 and 105 give
one firing, while a second event at 111 gives the second firing. -/
theorem single_play_per_cooldown_witness :
    ((ClaudeProjectsHandler.mk 0).handle (FileEvent.mk false "a.jsonl")
      100).1 = true ∧
    (((ClaudeProjectsHandler.mk 0).handle (FileEvent.mk false "a.jsonl")
      100).2.handle (FileEvent.mk false "a.jsonl") 105).1 = false ∧
    (((ClaudeProjectsHandler.mk 0).handle (FileEvent.mk false "a.jsonl")
      100).2.handle (FileEvent.mk false "a.jsonl") 111).1 = true :=
  ⟨((single_play_per_cooldown 100 105).1 (ClaudeProjectsHandler.mk 0)
      (FileEvent.mk false "a.jsonl") (FileEvent.mk false "a.jsonl")
      rfl (by decide) rfl (by decide) (by decide)).1,
   by
    have h2 := ((single_play_per_cooldown 100 105).1 (ClaudeProjectsHandler.mk 0)
      (FileEvent.mk false "a.jsonl") (FileEvent.mk false "a.jsonl")
      rfl (by decide) rfl (by decide) (by decide)).2
    rw [Bool.eq_false_iff]
    intro hcontra
    exact absurd (h2.mp hcontra) (by decide),
   ((single_play_per_cooldown 100 111).1 (ClaudeProjectsHandler.mk 0)
      (FileEvent.mk false "a.jsonl") (FileEvent.mk false "a.jsonl")
      rfl (by decide) rfl (by decide) (by decide)).2.mpr (by decide)⟩

/-- Counterexample for C7: the cooldown check-and-set has no lock, so the
conditional test and the fire-and-record body are separately interleavable
steps. With `last_played = 0`, two callers both issue Notify at time 100; the
interleaving check-check-fire-fire lets both pass the test, producing two
`play_beeps()` invocations where the claim requires exactly one. -/
theorem notify_race_counterexample :
    (runSchedule 100 (RaceState.mk 0 0 0 0)
      [true, false, true, false]).plays = 2 := by
  decide

/-- C7 amended: the check-and-set is not guarded by a lock, so two
interleaved Notify calls for one group can each pass the cooldown test and
fire twice; when the two calls run serially — as in the program, where each
group's events are delivered by a single thread — two Notify calls at the
same instant produce exactly one `play_beeps()` invocation. -/
theorem notify_serialized_single_play (now lp : Nat) (h : 10 ≤ now - lp) :
    (runSchedule now (RaceState.mk lp 0 0 0)
      [true, true, false, false]).plays = 1 := by
  simp [runSchedule, raceStep, h, Nat.sub_self]

/-- Witness for C7 amended at `last_played = 0`, both calls at time 100. -/
theorem notify_serialized_single_play_witness :
    (runSchedule 100 (RaceState.mk 0 0 0 0)
      [true, true, false, false]).plays = 1 :=
  notify_serialized_single_play 100 0 (by decide)

end CCMon
